import Mathlib

/-!
# Verification of `config.py` (BettaFish localized configuration module)

The module declares a `pydantic_settings.BaseSettings` subclass `Settings`
with 42 typed fields, configured with `env_file = ENV_FILE`,
`env_prefix = ""`, `case_sensitive = False`, `extra = "allow"`, and
instantiates a module-level singleton `settings`.

We embed the module shallowly:

* each field declaration `NAME: ty = Field(default, description=...)`
  becomes a `FieldSpec` entry of `settingsFields`, in source order.  The
  class body binds each declared name to the `FieldInfo` object returned by
  `Field(...)`, so the six agent declarations
  `X_BASE_URL: str = Field(OLLAMA_BASE_URL, ...)` pass the `OLLAMA_BASE_URL`
  `FieldInfo` object itself as the field's default (pydantic's `Field` does
  not unwrap a `FieldInfo` passed as `default`), and
  `Field(f"{SEARXNG_URL}/search", ...)` stringifies the `SEARXNG_URL`
  `FieldInfo` (via pydantic's `Representation.__str__` attribute-repr), so
  the `TAVILY_BASE_URL`/`BOCHA_BASE_URL` defaults are that repr string with
  `"/search"` appended.  Defaults are therefore `PyDefault` values: a proper
  string, a proper integer, or a `FieldInfo` object;
* the resolution engine (pydantic-settings itself is a third-party library,
  not part of this repository's sources) is modelled from its documented
  behaviour: per field, an environment variable whose name matches the
  field name case-insensitively wins, else a matching entry of the single
  resolved dotenv override file, else the built-in default.  `BaseSettings`
  sets `validate_default=True`, so a field resolved to its default is
  validated against its declared type exactly like an override: a
  `FieldInfo`-object default fails `str` validation and construction
  errors.  The model fails fast and reports the first failing field, where
  pydantic raises one `ValidationError` aggregating all of them.  Dotenv
  keys that match no declared field are retained as extras
  (`extra = "allow"`), while process environment variables that match no
  declared field are never collected by the environment source;
* the module-level `.env` path computation
  (`ENV_FILE = str(CWD_ENV if CWD_ENV.exists() else (PROJECT_ROOT / ".env"))`)
  is modelled over an abstract read-only file system;
* the constructed record's interface: the `Settings` model is not frozen
  (`Settings.Config` sets neither `frozen` nor `allow_mutation`), so besides
  attribute reads, Python attribute assignment on the singleton replaces a
  field's value in place (no validation, since `validate_assignment` is
  unset).  `SettingsOp` has both operations.

Environment and file contents are association lists `List (String × String)`;
an absent `.env` file is the empty list of entries.
-/

set_option autoImplicit false

namespace BettaFishConfig

/-- A `FieldInfo` object as the class body creates it with `Field(...)`:
the default it stores and its description (the two attributes the module's
code observes, by field collection and by stringification). -/
structure FieldInfoObj where
  defaultStr : String
  descr : String
  deriving DecidableEq, Repr

/-- A default value as it sits in a field declaration after the class body
runs: a proper string, a proper integer, or a `FieldInfo` object (the result
of passing a class-body name bound to `Field(...)` as the default). -/
inductive PyDefault where
  | str (s : String)
  | int (i : Int)
  | info (fi : FieldInfoObj)
  deriving DecidableEq, Repr

/-- A successfully validated configuration value: Python `str` or `int`. -/
inductive FieldValue where
  | str (s : String)
  | int (i : Int)
  deriving DecidableEq, Repr

/-- The declared type of a field: `str` or `int` in the source annotations. -/
inductive FieldType where
  | tStr
  | tInt
  deriving DecidableEq, Repr

/-- One field declaration `NAME: ty = Field(default, description=...)` of the
`Settings` class: its name, declared type, default, and description. -/
structure FieldSpec where
  name : String
  ftype : FieldType
  defaultVal : PyDefault
  descr : String
  deriving DecidableEq, Repr

/-- The `FieldInfo` object the class body binds to the name
`OLLAMA_BASE_URL` (src/config.py line 36), later passed as the default of
the six agent base-URL fields. -/
def ollamaFieldInfo : FieldInfoObj :=
  ⟨"http://ollama:11434/v1", "本地Ollama服务地址"⟩

/-- The `FieldInfo` object the class body binds to the name `SEARXNG_URL`
(src/config.py line 70), later stringified inside
`f"{SEARXNG_URL}/search"`. -/
def searxngFieldInfo : FieldInfoObj :=
  ⟨"http://searxng:8888", "本地SearXNG服务地址"⟩

/-- `str(fi)` for a `FieldInfo` object, per pydantic's
`Representation.__str__`: a space-joined attribute repr (annotation,
required flag, then the set attributes).  Its precise content is
pydantic-version-dependent; no theorem below depends on it beyond the fact
that it is this stringification — an attribute repr built from the
`FieldInfo` — and not the stored default URL itself. -/
def strOfFieldInfo (fi : FieldInfoObj) : String :=
  "annotation=NoneType required=False default='" ++ fi.defaultStr ++
    "' description='" ++ fi.descr ++ "'"

/-- The 42 field declarations of `class Settings`, in source order
(src/config.py lines 27-91).  The six agent base-URL fields carry the
`OLLAMA_BASE_URL` `FieldInfo` object as their default
(`Field(OLLAMA_BASE_URL, ...)` passes the object, not a string); the
`TAVILY_BASE_URL`/`BOCHA_BASE_URL` defaults are the f-string
`f"{SEARXNG_URL}/search"`, i.e. the stringified `SEARXNG_URL` `FieldInfo`
with `"/search"` appended. -/
def settingsFields : List FieldSpec :=
  [ ⟨"DB_DIALECT", .tStr, .str "mysql", "数据库类型，例如 'mysql' 或 'postgresql'"⟩,
    ⟨"DB_HOST", .tStr, .str "mysql", "数据库主机，本地默认使用mysql容器"⟩,
    ⟨"DB_PORT", .tInt, .int 3306, "数据库端口号"⟩,
    ⟨"DB_USER", .tStr, .str "root", "数据库用户名，本地默认root"⟩,
    ⟨"DB_PASSWORD", .tStr, .str "local_password", "数据库密码，本地默认密码"⟩,
    ⟨"DB_NAME", .tStr, .str "mindspider", "数据库名称，本地默认mindspider"⟩,
    ⟨"DB_CHARSET", .tStr, .str "utf8mb4", "数据库字符集，推荐utf8mb4"⟩,
    ⟨"OLLAMA_BASE_URL", .tStr, .str ollamaFieldInfo.defaultStr, "本地Ollama服务地址"⟩,
    ⟨"INSIGHT_ENGINE_API_KEY", .tStr, .str "ollama", "Ollama无需实际API密钥"⟩,
    ⟨"INSIGHT_ENGINE_BASE_URL", .tStr, .info ollamaFieldInfo, "Insight Agent使用Ollama服务地址"⟩,
    ⟨"INSIGHT_ENGINE_MODEL_NAME", .tStr, .str "qwen3:30b", "Ollama中的qwen3:30b模型"⟩,
    ⟨"MEDIA_ENGINE_API_KEY", .tStr, .str "ollama", "Ollama无需实际API密钥"⟩,
    ⟨"MEDIA_ENGINE_BASE_URL", .tStr, .info ollamaFieldInfo, "Media Agent使用Ollama服务地址"⟩,
    ⟨"MEDIA_ENGINE_MODEL_NAME", .tStr, .str "qwen3:30b", "Ollama中的qwen3:30b模型"⟩,
    ⟨"QUERY_ENGINE_API_KEY", .tStr, .str "ollama", "Ollama无需实际API密钥"⟩,
    ⟨"QUERY_ENGINE_BASE_URL", .tStr, .info ollamaFieldInfo, "Query Agent使用Ollama服务地址"⟩,
    ⟨"QUERY_ENGINE_MODEL_NAME", .tStr, .str "qwen3:30b", "Ollama中的qwen3:30b模型"⟩,
    ⟨"REPORT_ENGINE_API_KEY", .tStr, .str "ollama", "Ollama无需实际API密钥"⟩,
    ⟨"REPORT_ENGINE_BASE_URL", .tStr, .info ollamaFieldInfo, "Report Agent使用Ollama服务地址"⟩,
    ⟨"REPORT_ENGINE_MODEL_NAME", .tStr, .str "qwen3:30b", "Ollama中的qwen3:30b模型"⟩,
    ⟨"FORUM_HOST_API_KEY", .tStr, .str "ollama", "Ollama无需实际API密钥"⟩,
    ⟨"FORUM_HOST_BASE_URL", .tStr, .info ollamaFieldInfo, "Forum Host使用Ollama服务地址"⟩,
    ⟨"FORUM_HOST_MODEL_NAME", .tStr, .str "qwen3:30b", "Ollama中的qwen3:30b模型"⟩,
    ⟨"KEYWORD_OPTIMIZER_API_KEY", .tStr, .str "ollama", "Ollama无需实际API密钥"⟩,
    ⟨"KEYWORD_OPTIMIZER_BASE_URL", .tStr, .info ollamaFieldInfo, "Keyword Optimizer使用Ollama服务地址"⟩,
    ⟨"KEYWORD_OPTIMIZER_MODEL_NAME", .tStr, .str "qwen3:30b", "Ollama中的qwen3:30b模型"⟩,
    ⟨"SEARXNG_URL", .tStr, .str searxngFieldInfo.defaultStr, "本地SearXNG服务地址"⟩,
    ⟨"TAVILY_API_KEY", .tStr, .str "local", "本地SearXNG无需实际密钥"⟩,
    ⟨"TAVILY_BASE_URL", .tStr, .str (strOfFieldInfo searxngFieldInfo ++ "/search"), "SearXNG搜索接口地址"⟩,
    ⟨"BOCHA_BASE_URL", .tStr, .str (strOfFieldInfo searxngFieldInfo ++ "/search"), "SearXNG搜索接口地址（替代博查）"⟩,
    ⟨"BOCHA_WEB_SEARCH_API_KEY", .tStr, .str "local", "本地SearXNG无需实际密钥"⟩,
    ⟨"DEFAULT_SEARCH_HOT_CONTENT_LIMIT", .tInt, .int 100, "热榜内容默认最大数"⟩,
    ⟨"DEFAULT_SEARCH_TOPIC_GLOBALLY_LIMIT_PER_TABLE", .tInt, .int 50, "按表全局话题最大数"⟩,
    ⟨"DEFAULT_SEARCH_TOPIC_BY_DATE_LIMIT_PER_TABLE", .tInt, .int 100, "按日期话题最大数"⟩,
    ⟨"DEFAULT_GET_COMMENTS_FOR_TOPIC_LIMIT", .tInt, .int 500, "单话题评论最大数"⟩,
    ⟨"DEFAULT_SEARCH_TOPIC_ON_PLATFORM_LIMIT", .tInt, .int 200, "平台搜索话题最大数"⟩,
    ⟨"MAX_SEARCH_RESULTS_FOR_LLM", .tInt, .int 0, "供LLM用搜索结果最大数"⟩,
    ⟨"MAX_HIGH_CONFIDENCE_SENTIMENT_RESULTS", .tInt, .int 0, "高置信度情感分析最大数"⟩,
    ⟨"MAX_REFLECTIONS", .tInt, .int 3, "最大反思次数"⟩,
    ⟨"MAX_PARAGRAPHS", .tInt, .int 6, "最大段落数"⟩,
    ⟨"SEARCH_TIMEOUT", .tInt, .int 240, "单次搜索请求超时"⟩,
    ⟨"MAX_CONTENT_LENGTH", .tInt, .int 500000, "搜索最大内容长度"⟩ ]

/-- ASCII lowercasing of a string, character by character (the normalization
pydantic-settings applies to names when `case_sensitive = False`). -/
def low (s : String) : String :=
  ⟨s.data.map Char.toLower⟩

/-- Parse a string as an integer literal, as Python's `int` constructor does
on a trimmed decimal string: an optional sign followed by at least one
digit.  (Surrounding whitespace and `_` digit separators, which Python also
tolerates, are not modelled; no claim turns on them.) -/
def parseDigitsAux (acc : Nat) : List Char → Option Nat
  | [] => some acc
  | c :: cs => if c.isDigit then parseDigitsAux (acc * 10 + (c.toNat - 48)) cs else none

/-- Parse a (sign-stripped) nonempty digit string. -/
def parseDigits : List Char → Option Nat
  | [] => none
  | cs => parseDigitsAux 0 cs

/-- Integer coercion of a raw string: optional `-`/`+` sign, then a
nonempty run of decimal digits; anything else fails to coerce. -/
def str2int (s : String) : Option Int :=
  match s.data with
  | '-' :: cs => (parseDigits cs).map (fun n => -(n : Int))
  | '+' :: cs => (parseDigits cs).map (fun n => (n : Int))
  | cs => (parseDigits cs).map (fun n => (n : Int))

/-- Case-insensitive lookup of a field name in an external override source
(`case_sensitive = False` in `Settings.Config`): the first entry whose key
equals the field name up to ASCII case, if any. -/
def ciLookup (src : List (String × String)) (name : String) : Option String :=
  (src.find? (fun p => low p.1 == low name)).map Prod.snd

/-- The raw override for a field: environment variables first, then the
resolved dotenv file — the source priority of pydantic-settings (init
arguments aside, which `settings = Settings()` passes none of). -/
def resolveRaw (env file : List (String × String)) (name : String) : Option String :=
  match ciLookup env name with
  | some v => some v
  | none => ciLookup file name

/-- Validate a value against the field's declared type.  A `str` field
accepts a string and nothing else (pydantic v2 does not coerce an `int` or
an arbitrary object such as a `FieldInfo` to `str`); an `int` field accepts
an integer or a string parsing as one (lax string-to-int coercion).  A
failure is reported with the field's name. -/
def validate (f : FieldSpec) : PyDefault → Except String FieldValue
  | .str s =>
    match f.ftype with
    | .tStr => .ok (.str s)
    | .tInt =>
      match str2int s with
      | some i => .ok (.int i)
      | none => .error f.name
  | .int i =>
    match f.ftype with
    | .tStr => .error f.name
    | .tInt => .ok (.int i)
  | .info _ => .error f.name

/-- Resolve one field: the raw override (env, then file) validated as a
string value, or — because `BaseSettings` sets `validate_default=True` —
the declared default, validated against the declared type just the same. -/
def resolveField (env file : List (String × String)) (f : FieldSpec) :
    Except String FieldValue :=
  match resolveRaw env file f.name with
  | some raw => validate f (.str raw)
  | none => validate f f.defaultVal

/-- Resolve a list of field declarations in order, failing on the first
validation failure (no partial record; pydantic aggregates all failures into
one `ValidationError`, the model reports the first failing field). -/
def resolveAll (env file : List (String × String)) :
    List FieldSpec → Except String (List (String × FieldValue))
  | [] => .ok []
  | f :: rest =>
    match resolveField env file f with
    | .error e => .error e
    | .ok v =>
      match resolveAll env file rest with
      | .error e => .error e
      | .ok vs => .ok ((f.name, v) :: vs)

/-- Keys of the dotenv file that match no declared field (case-insensitively):
with `extra = "allow"` the dotenv source forwards them and the model retains
them as extra attributes.  The environment-variable source only ever collects
values for declared fields, so no environment variable contributes here. -/
def extrasOf (file : List (String × String)) : List (String × String) :=
  file.filter (fun p => ¬ settingsFields.any (fun f => low f.name == low p.1))

/-- A constructed `Settings` record: the value of every declared field (in
declaration order, keyed by field name) plus the extras bag. -/
structure SettingsRecord where
  fields : List (String × FieldValue)
  extras : List (String × String)
  deriving DecidableEq, Repr

/-- Construct the `Settings` record (`Settings()`): resolve every declared
field against the environment and the single resolved override file,
validating overrides and defaults alike. -/
def mkSettings (env file : List (String × String)) : Except String SettingsRecord :=
  match resolveAll env file settingsFields with
  | .error e => .error e
  | .ok vals => .ok ⟨vals, extrasOf file⟩

/-- Read a field of a constructed record by its declared name. -/
def getField (r : SettingsRecord) (name : String) : Option FieldValue :=
  (r.fields.find? (fun p => p.1 == name)).map Prod.snd

/-- The resolved value of a named field of `mkSettings env file`, when
construction succeeds and the field exists. -/
def fieldOf (env file : List (String × String)) (name : String) : Option FieldValue :=
  match mkSettings env file with
  | .ok r => getField r name
  | .error _ => none

/-- The construction error of `mkSettings env file`, if any: the name of the
first field whose value failed validation, `none` on success. -/
def errorOf (env file : List (String × String)) : Option String :=
  match mkSettings env file with
  | .ok _ => none
  | .error e => some e

/-- The extras bag of a successful construction. -/
def extrasBag (env file : List (String × String)) : Option (List (String × String)) :=
  match mkSettings env file with
  | .ok r => some r.extras
  | .error _ => none

/-- The constructed record of a successful construction (the empty record
when construction fails; only used at inputs where it succeeds). -/
def recordOr (env file : List (String × String)) : SettingsRecord :=
  match mkSettings env file with
  | .ok r => r
  | .error _ => ⟨[], []⟩

/-- The declaration of a field, found by name. -/
def findSpec (name : String) : Option FieldSpec :=
  settingsFields.find? (fun f => f.name == name)

/-- An environment overriding exactly the six agent base-URL fields — the
minimum that lets construction succeed, since their declared defaults are
`FieldInfo` objects that fail `str` validation. -/
def sixAgentEnv : List (String × String) :=
  [ ("INSIGHT_ENGINE_BASE_URL", "http://ollama:11434/v1"),
    ("MEDIA_ENGINE_BASE_URL", "http://ollama:11434/v1"),
    ("QUERY_ENGINE_BASE_URL", "http://ollama:11434/v1"),
    ("REPORT_ENGINE_BASE_URL", "http://ollama:11434/v1"),
    ("FORUM_HOST_BASE_URL", "http://ollama:11434/v1"),
    ("KEYWORD_OPTIMIZER_BASE_URL", "http://ollama:11434/v1") ]

/-! ## The module-level `.env` path computation and the singleton

`PROJECT_ROOT = Path(__file__).resolve().parent`, `CWD_ENV = Path.cwd()/".env"`,
`ENV_FILE = str(CWD_ENV if CWD_ENV.exists() else (PROJECT_ROOT/".env"))`,
then `settings = Settings()`.  The file system is abstract and read-only:
a current working directory, the module's directory, an existence predicate
and a contents map (a missing file has no entries). -/

/-- Read-only view of the process state the module consults at import time. -/
structure FileSystem where
  cwd : String
  moduleDir : String
  fileExists : String → Bool
  contents : String → List (String × String)

/-- `CWD_ENV`: the candidate override-file path in the working directory. -/
def CWD_ENV (fs : FileSystem) : String := fs.cwd ++ "/.env"

/-- `PROJECT_ROOT / ".env"`: the fallback override file beside the module. -/
def ROOT_ENV (fs : FileSystem) : String := fs.moduleDir ++ "/.env"

/-- `ENV_FILE`: computed once at module load, before any field is populated —
the working-directory `.env` if it exists, else the module-directory `.env`. -/
def ENV_FILE (fs : FileSystem) : String :=
  if fs.fileExists (CWD_ENV fs) then CWD_ENV fs else ROOT_ENV fs

/-- `settings = Settings()`: the module-level singleton, constructed from the
process environment and the single file `ENV_FILE` selects. -/
def settings (fs : FileSystem) (env : List (String × String)) :
    Except String SettingsRecord :=
  mkSettings env (fs.contents (ENV_FILE fs))

/-- A file system with no `.env` file anywhere. -/
def emptyFS : FileSystem :=
  ⟨"", "", fun _ => false, fun _ => []⟩

/-! ## Interface of the constructed record

The module exposes the singleton by name; a consumer can read attributes,
and — because the pydantic model is not frozen (`Settings.Config` sets
neither `frozen` nor `allow_mutation`) — can also assign to them, which
replaces the field's value in place without validation
(`validate_assignment` is unset).  Assignment to a name that is no declared
field (an extra attribute) is outside the model. -/

/-- The operations available on the constructed record: attribute read, and
attribute assignment to a declared field. -/
inductive SettingsOp where
  | get
  | set (name : String) (v : FieldValue)
  deriving DecidableEq, Repr

/-- Apply one operation to the record: `get` leaves it unchanged, `set`
replaces the named declared field's value. -/
def applyOp (s : SettingsRecord) : SettingsOp → SettingsRecord
  | .get => s
  | .set name v =>
    ⟨s.fields.map (fun p => if p.1 == name then (p.1, v) else p), s.extras⟩

/-- Run a sequence of operations on the constructed record. -/
def runOps (s : SettingsRecord) : List SettingsOp → SettingsRecord
  | [] => s
  | op :: rest => runOps (applyOp s op) rest

example : errorOf [] [] = some "INSIGHT_ENGINE_BASE_URL" := by decide
example : errorOf sixAgentEnv [] = none := by decide
example : fieldOf sixAgentEnv [] "DB_PORT" = some (.int 3306) := by decide
example : fieldOf (("db_port", "5432") :: sixAgentEnv) [] "DB_PORT" = some (.int 5432) := by
  decide
example : errorOf (("DB_PORT", "abc") :: sixAgentEnv) [] = some "DB_PORT" := by decide
example : errorOf (sixAgentEnv ++ [("unknown_key", "v")]) [] = none := by decide

/-! ## Helper lemmas on the resolution engine -/

theorem resolveField_of_env {env file : List (String × String)} {f : FieldSpec}
    {v : String} (h : ciLookup env f.name = some v) :
    resolveField env file f = validate f (.str v) := by
  simp [resolveField, resolveRaw, h]

theorem resolveField_of_file {env file : List (String × String)} {f : FieldSpec}
    {v : String} (henv : ciLookup env f.name = none)
    (h : ciLookup file f.name = some v) :
    resolveField env file f = validate f (.str v) := by
  simp [resolveField, resolveRaw, henv, h]

theorem resolveField_default {env file : List (String × String)} {f : FieldSpec}
    (henv : ciLookup env f.name = none) (hfile : ciLookup file f.name = none) :
    resolveField env file f = validate f f.defaultVal := by
  simp [resolveField, resolveRaw, henv, hfile]

theorem ciLookup_cons_match {k v name : String} (rest : List (String × String))
    (h : low k = low name) :
    ciLookup ((k, v) :: rest) name = some v := by
  simp [ciLookup, List.find?_cons_of_pos, h]

theorem ciLookup_append_unmatched {src : List (String × String)} {k v name : String}
    (h : low k ≠ low name) :
    ciLookup (src ++ [(k, v)]) name = ciLookup src name := by
  unfold ciLookup
  rw [List.find?_append]
  have hk : List.find? (fun p => low p.1 == low name) [(k, v)] = none := by
    have hb : (low k == low name) = false := by
      simp [h]
    simp [List.find?, hb]
  rw [hk]
  cases List.find? (fun p => low p.1 == low name) src <;> rfl

theorem resolveAll_congr {env env' file file' : List (String × String)}
    {l : List FieldSpec}
    (h : ∀ f ∈ l, resolveField env file f = resolveField env' file' f) :
    resolveAll env file l = resolveAll env' file' l := by
  induction l with
  | nil => rfl
  | cons f rest ih =>
    unfold resolveAll
    rw [h f (by simp), ih (fun g hg => h g (by simp [hg]))]

/-! ## Claim theorems -/

/-- C1: for every declared field of the `Settings` record, resolution follows
the precedence environment variable > override file > built-in default, with
field-name matching done case-insensitively: a case-insensitive environment
match wins over any override-file entry, an override-file entry wins over the
built-in default (which is used, validated, only when neither source
matches), and an override-source key matches when it equals the field name
up to case. -/
theorem precedence_env_file_default (f : FieldSpec) (_hf : f ∈ settingsFields)
    (env file : List (String × String)) :
    (∀ v, ciLookup env f.name = some v → resolveField env file f = validate f (.str v)) ∧
    (ciLookup env f.name = none →
      ∀ v, ciLookup file f.name = some v → resolveField env file f = validate f (.str v)) ∧
    (ciLookup env f.name = none → ciLookup file f.name = none →
      resolveField env file f = validate f f.defaultVal) ∧
    (∀ k v rest, low k = low f.name → ciLookup ((k, v) :: rest) f.name = some v) := by
  refine ⟨?_, ?_, ?_, ?_⟩
  · intro v h
    exact resolveField_of_env h
  · intro henv v h
    exact resolveField_of_file henv h
  · intro henv hfile
    exact resolveField_default henv hfile
  · intro k v rest h
    exact ciLookup_cons_match rest h

theorem precedence_env_file_default_witness :
    resolveField [("db_port", "5432")] [("DB_PORT", "1")]
        ⟨"DB_PORT", .tInt, .int 3306, "数据库端口号"⟩ = Except.ok (.int 5432) := by
  have h := (precedence_env_file_default ⟨"DB_PORT", .tInt, .int 3306, "数据库端口号"⟩
      (by decide) [("db_port", "5432")] [("DB_PORT", "1")]).1 "5432" (by decide)
  rw [h]
  rfl

/-- C2 fails on the code: with zero external configuration — no environment
variables, no `.env` entries — construction does not produce a fully
populated record of documented defaults; it errors, because the six agent
base-URL fields' declared defaults are `FieldInfo` objects that fail `str`
validation under `validate_default=True`.  No field value is observable. -/
theorem zero_config_construction_raises :
    errorOf [] [] = some "INSIGHT_ENGINE_BASE_URL" ∧
    fieldOf [] [] "DB_PORT" = none ∧
    fieldOf [] [] "SEARXNG_URL" = none ∧
    fieldOf [] [] "BOCHA_BASE_URL" = none := by
  decide

/-- C3 fails on the code: the class body does not compute the derived
defaults from the base fields' default strings.  The six agent base-URL
declarations carry the `OLLAMA_BASE_URL` `FieldInfo` object itself as their
default, and the two search shims carry the stringified `SEARXNG_URL`
`FieldInfo` with `"/search"` appended; consequently a construction that
overrides the base but not a derived agent field errors on the derived
field's default instead of resolving it to the base's definition-time
default string. -/
theorem derived_defaults_are_fieldinfo :
    (findSpec "INSIGHT_ENGINE_BASE_URL").map (fun f => f.defaultVal)
      = some (.info ollamaFieldInfo) ∧
    (findSpec "MEDIA_ENGINE_BASE_URL").map (fun f => f.defaultVal)
      = some (.info ollamaFieldInfo) ∧
    (findSpec "QUERY_ENGINE_BASE_URL").map (fun f => f.defaultVal)
      = some (.info ollamaFieldInfo) ∧
    (findSpec "REPORT_ENGINE_BASE_URL").map (fun f => f.defaultVal)
      = some (.info ollamaFieldInfo) ∧
    (findSpec "FORUM_HOST_BASE_URL").map (fun f => f.defaultVal)
      = some (.info ollamaFieldInfo) ∧
    (findSpec "KEYWORD_OPTIMIZER_BASE_URL").map (fun f => f.defaultVal)
      = some (.info ollamaFieldInfo) ∧
    (findSpec "TAVILY_BASE_URL").map (fun f => f.defaultVal)
      = some (.str (strOfFieldInfo searxngFieldInfo ++ "/search")) ∧
    (findSpec "BOCHA_BASE_URL").map (fun f => f.defaultVal)
      = some (.str (strOfFieldInfo searxngFieldInfo ++ "/search")) ∧
    errorOf [("OLLAMA_BASE_URL", "http://other:1/v1")] []
      = some "INSIGHT_ENGINE_BASE_URL" := by
  decide

/-- C4 fails on the code: construction errors even when no override value is
present at all — with empty environment and file, every field's raw override
is absent, yet construction fails on the `FieldInfo`-valued agent URL
defaults under `validate_default=True`.  So "error iff some override value
cannot be converted" does not hold. -/
theorem error_without_any_override :
    (∀ f ∈ settingsFields, resolveRaw [] [] f.name = none) ∧
    errorOf [] [] = some "INSIGHT_ENGINE_BASE_URL" := by
  refine ⟨by decide, by decide⟩

/-- C5: the override-file path is resolved once, by the module-level
computation, before any field is resolved: the working-directory `.env` when
it exists, else the `.env` beside the module; the singleton is then built from
that single file, and the record depends on the file system only through the
selected path's contents — there is no per-field fallback to the other file. -/
theorem env_file_selection (fs : FileSystem) (env : List (String × String)) :
    (fs.fileExists (CWD_ENV fs) = true →
        ENV_FILE fs = CWD_ENV fs ∧
        settings fs env = mkSettings env (fs.contents (CWD_ENV fs))) ∧
    (fs.fileExists (CWD_ENV fs) = false →
        ENV_FILE fs = ROOT_ENV fs ∧
        settings fs env = mkSettings env (fs.contents (ROOT_ENV fs))) ∧
    (∀ fs' : FileSystem, ENV_FILE fs' = ENV_FILE fs →
        fs'.contents (ENV_FILE fs') = fs.contents (ENV_FILE fs) →
        settings fs' env = settings fs env) := by
  refine ⟨?_, ?_, ?_⟩
  · intro h
    exact ⟨by simp [ENV_FILE, h], by simp [settings, ENV_FILE, h]⟩
  · intro h
    exact ⟨by simp [ENV_FILE, h], by simp [settings, ENV_FILE, h]⟩
  · intro fs' h1 h2
    unfold settings
    rw [h1] at h2 ⊢
    rw [h2]

theorem env_file_selection_witness :
    ENV_FILE ⟨"/cwd", "/mod", fun _ => true, fun _ => []⟩ = "/cwd/.env" ∧
    settings ⟨"/cwd", "/mod", fun _ => true, fun _ => []⟩ [] = mkSettings [] [] :=
  (env_file_selection ⟨"/cwd", "/mod", fun _ => true, fun _ => []⟩ []).1 rfl

/-- C6 fails on the code: with `DB_PORT=5432` as the only external input,
construction does not yield a record with the other fields at their
documented defaults — it errors on the first un-overridden agent base-URL
field, whose `FieldInfo` default fails `str` validation. -/
theorem db_port_override_still_raises :
    errorOf [("DB_PORT", "5432")] [] = some "INSIGHT_ENGINE_BASE_URL" ∧
    fieldOf [("DB_PORT", "5432")] [] "DB_PORT" = none := by
  decide

/-- C7 as stated is false on the code: at a concrete input where
construction succeeds (the six agent base URLs overridden, so default
validation passes), an environment variable whose name matches no declared
field is accepted but dropped — the extras bag comes out empty, so the
unrecognized pair from the environment source is not retained. -/
theorem env_unknown_key_not_retained :
    errorOf (sixAgentEnv ++ [("SOME_UNKNOWN_KEY", "x")]) [] = none ∧
    extrasBag (sixAgentEnv ++ [("SOME_UNKNOWN_KEY", "x")]) [] = some [] := by
  decide

/-- C7 (amended): keys matching no declared field never change the outcome of
construction (they are never rejected); an unknown environment variable is
ignored outright — the result is as if it were absent — while an unknown
override-file entry is retained in the record's extras bag. -/
theorem unknown_keys_tolerated (env file : List (String × String)) (k v : String)
    (hk : ∀ f ∈ settingsFields, low f.name ≠ low k) :
    mkSettings (env ++ [(k, v)]) file = mkSettings env file ∧
    mkSettings env (file ++ [(k, v)]) =
      (mkSettings env file).map (fun r => ⟨r.fields, r.extras ++ [(k, v)]⟩) := by
  have hres_env : ∀ f ∈ settingsFields,
      resolveField (env ++ [(k, v)]) file f = resolveField env file f := by
    intro f hf
    unfold resolveField resolveRaw
    rw [ciLookup_append_unmatched (Ne.symm (hk f hf))]
  have hres_file : ∀ f ∈ settingsFields,
      resolveField env (file ++ [(k, v)]) f = resolveField env file f := by
    intro f hf
    unfold resolveField resolveRaw
    rw [ciLookup_append_unmatched (Ne.symm (hk f hf))]
  have hany : (settingsFields.any (fun f => low f.name == low k)) = false := by
    rw [List.any_eq_false]
    intro f hf
    simp [hk f hf]
  have hextras : extrasOf (file ++ [(k, v)]) = extrasOf file ++ [(k, v)] := by
    unfold extrasOf
    rw [List.filter_append]
    congr 1
    simp [List.filter, hany]
  constructor
  · unfold mkSettings
    rw [resolveAll_congr hres_env]
  · unfold mkSettings
    rw [resolveAll_congr hres_file, hextras]
    cases resolveAll env file settingsFields <;> rfl

theorem unknown_keys_tolerated_witness :
    mkSettings (sixAgentEnv ++ [("some_unknown", "x")]) [] = mkSettings sixAgentEnv [] ∧
    mkSettings sixAgentEnv ([] ++ [("some_unknown", "x")]) =
      (mkSettings sixAgentEnv []).map
        (fun r => ⟨r.fields, r.extras ++ [("some_unknown", "x")]⟩) :=
  unknown_keys_tolerated sixAgentEnv [] "some_unknown" "x" (by decide)

/-- C8: construction is deterministic in its inputs — two constructions of
the singleton from the same file system and the same environment yield the
same record, with identical values for every field. -/
theorem settings_deterministic (fs : FileSystem) (env : List (String × String))
    (r₁ r₂ : SettingsRecord) (h₁ : settings fs env = Except.ok r₁)
    (h₂ : settings fs env = Except.ok r₂) :
    r₁ = r₂ ∧ ∀ name, getField r₁ name = getField r₂ name := by
  have h : r₁ = r₂ := Except.ok.inj (h₁.symm.trans h₂)
  exact ⟨h, fun name => by rw [h]⟩

theorem settings_deterministic_witness :
    getField (recordOr sixAgentEnv []) "DB_PORT"
      = getField (recordOr sixAgentEnv []) "DB_PORT" :=
  (settings_deterministic emptyFS sixAgentEnv (recordOr sixAgentEnv [])
    (recordOr sixAgentEnv []) (by rfl) (by rfl)).2 "DB_PORT"

/-- C9 as stated is false on the code: the pydantic model is not frozen, so
attribute assignment is an operation on the constructed record that changes
a field's value — at a concrete constructed record, assigning `DB_PORT`
replaces its resolved value `3306` with `9999`. -/
theorem settings_mutation_counterexample :
    getField (recordOr sixAgentEnv []) "DB_PORT" = some (.int 3306) ∧
    getField (applyOp (recordOr sixAgentEnv []) (.set "DB_PORT" (.int 9999))) "DB_PORT"
      = some (.int 9999) := by
  decide

/-- C9 (amended): the module itself defines no update or delete operation,
and reading the record never changes it — any sequence consisting only of
reads leaves the constructed record exactly as it was, and a read returns
it.  Immutability is not enforced against consumers: attribute assignment
(modelled by the `set` operation) does change a field in place. -/
theorem settings_reads_preserve (s : SettingsRecord) (ops : List SettingsOp) :
    ((∀ op ∈ ops, op = SettingsOp.get) → runOps s ops = s) ∧
    applyOp s SettingsOp.get = s := by
  constructor
  · induction ops with
    | nil =>
      intro _
      rfl
    | cons op rest ih =>
      intro h
      have hop : op = SettingsOp.get := h op (List.mem_cons_self op rest)
      subst hop
      exact ih (fun o ho => h o (List.mem_cons_of_mem _ ho))
  · rfl

theorem settings_reads_preserve_witness :
    runOps (recordOr sixAgentEnv []) [SettingsOp.get, SettingsOp.get]
      = recordOr sixAgentEnv [] :=
  (settings_reads_preserve (recordOr sixAgentEnv [])
    [SettingsOp.get, SettingsOp.get]).1 (by decide)

/-- C10 fails on the code: with zero external configuration no record is
constructed at all (the `FieldInfo`-valued agent URL defaults fail
validation), so none of the claimed values is observable; and the declared
default of `TAVILY_BASE_URL` is the stringified `SEARXNG_URL` `FieldInfo`
with `"/search"` appended — an attribute-repr-derived string, not
`"http://searxng:8888/search"`. -/
theorem implicit_defaults_malformed :
    errorOf [] [] ≠ none ∧
    fieldOf [] [] "OLLAMA_BASE_URL" = none ∧
    fieldOf [] [] "TAVILY_API_KEY" = none ∧
    (findSpec "TAVILY_BASE_URL").map (fun f => f.defaultVal)
      ≠ some (.str "http://searxng:8888/search") := by
  decide

end BettaFishConfig
